import Mathlib

/-!
Verification of the wing-surface generator (wing.py).

The program builds a 3-D wing from a 2-D airfoil point list and a planform
schedule: it scales, shears and translates the airfoil per planform station,
transposes the resulting sections into a control-point grid, hands the grid
to an external spline library, and renders the surface through an external
plotting library.

Modelling conventions:
  - Python floats are modelled as real numbers.
  - A point (x, y, z) is a triple of reals.
  - Python list indexing that can raise IndexError is modelled in an
    Except monad (pyIndex); the ValueError raise is an Except error too.
  - The external geomdl BSpline.Surface object is modelled as a record of
    everything the repository code stores into it; the external call
    utils.generate_knot_vector(degree, n) is recorded as the argument pair
    (degree, n) it receives.
  - The rendering function performs only external side effects; it is
    modelled as returning its Python return value together with the trace
    of calls it makes on the external objects.
-/

namespace Wing

/-- A 3-D point, modelling the Python tuple or list (x, y, z) of floats. -/
abbrev Point : Type := ℝ × ℝ × ℝ

/-- Degrees-to-radians conversion followed by tangent, modelling
np.tan(np.radians(deg)). -/
noncomputable def tanRadians (deg : ℝ) : ℝ :=
  Real.tan (deg * Real.pi / 180)

/-- The per-point body of the first comprehension in scale_and_sweep_airfoil:
[x * chord, y * chord, 0]. -/
def scalePoint (chord : ℝ) (p : Point) : Point :=
  (p.1 * chord, p.2.1 * chord, 0)

/-- The per-point body of the second comprehension in scale_and_sweep_airfoil:
[x + sweep_dist, y, z + span_pos]. -/
def sweepPoint (sweep_dist span_pos : ℝ) (p : Point) : Point :=
  (p.1 + sweep_dist, p.2.1, p.2.2 + span_pos)

/-- wing.py, scale_and_sweep_airfoil: scale every point by the chord
(zeroing z), compute the sweep distance span_pos * tan(radians(sweep_angle)),
then shift x by the sweep distance and z by the span position. -/
noncomputable def scale_and_sweep_airfoil
    (airfoil : List Point) (chord sweep_angle span_pos : ℝ) : List Point :=
  let scaled_airfoil := airfoil.map (scalePoint chord)
  let sweep_dist := span_pos * tanRadians sweep_angle
  let swept_airfoil := scaled_airfoil.map (sweepPoint sweep_dist span_pos)
  swept_airfoil

/-- The composite map applied to each individual airfoil point by
scale_and_sweep_airfoil: sweeping after scaling. -/
noncomputable def sectionPointMap (chord sweep_angle span_pos : ℝ) (p : Point) : Point :=
  sweepPoint (span_pos * tanRadians sweep_angle) span_pos (scalePoint chord p)

theorem scale_and_sweep_eq_map (airfoil : List Point) (chord sweep_angle span_pos : ℝ) :
    scale_and_sweep_airfoil airfoil chord sweep_angle span_pos
      = airfoil.map (sectionPointMap chord sweep_angle span_pos) := by
  simp only [scale_and_sweep_airfoil, List.map_map]
  rfl

theorem scale_and_sweep_formula (airfoil : List Point) (chord sweep_angle span_pos : ℝ) :
    scale_and_sweep_airfoil airfoil chord sweep_angle span_pos
      = airfoil.map (fun p =>
          (p.1 * chord + span_pos * tanRadians sweep_angle, p.2.1 * chord, span_pos)) := by
  have hfun : sectionPointMap chord sweep_angle span_pos
      = fun p : Point =>
          (p.1 * chord + span_pos * tanRadians sweep_angle, p.2.1 * chord, span_pos) := by
    funext p
    simp [sectionPointMap, sweepPoint, scalePoint]
  rw [scale_and_sweep_eq_map, hfun]

/-- wing.py, generate_wing_geometry: start from an empty list and, for each
planform entry (span_pos, chord, sweep_angle) in order, append the transformed
section scale_and_sweep_airfoil(airfoil, chord, sweep_angle, span_pos). -/
noncomputable def generate_wing_geometry
    (airfoil : List Point) (planform : List (ℝ × ℝ × ℝ)) : List (List Point) :=
  planform.foldl
    (fun wing_sections st =>
      wing_sections ++ [scale_and_sweep_airfoil airfoil st.2.1 st.2.2 st.1])
    []

theorem foldl_append_singleton {α β : Type} (f : α → β) :
    ∀ (l : List α) (acc : List β),
      l.foldl (fun a x => a ++ [f x]) acc = acc ++ l.map f := by
  intro l
  induction l with
  | nil => intro acc; simp
  | cons x xs ih => intro acc; simp [List.foldl_cons, ih]

/-- C1: scale_and_sweep_airfoil preserves the length of the point list, and
sends each input point (x, y, z) to
(x * chord + span_pos * tan(radians(sweep_angle)), y * chord, span_pos):
scaling by the chord, shearing x by the sweep angle in proportion to the
span position, and translating z to the span position. -/
theorem scale_and_sweep_airfoil_pointwise_formula
    (airfoil : List Point) (chord sweep_angle span_pos : ℝ) :
    (scale_and_sweep_airfoil airfoil chord sweep_angle span_pos).length = airfoil.length ∧
    scale_and_sweep_airfoil airfoil chord sweep_angle span_pos
      = airfoil.map (fun p =>
          (p.1 * chord + span_pos * tanRadians sweep_angle, p.2.1 * chord, span_pos)) := by
  constructor
  · rw [scale_and_sweep_eq_map]
    exact List.length_map airfoil _
  · exact scale_and_sweep_formula airfoil chord sweep_angle span_pos

/-- C4: generate_wing_geometry produces exactly one transformed section per
planform station, in planform order: the result is the map over the planform
sending (span_pos, chord, sweep_angle) to
scale_and_sweep_airfoil(airfoil, chord, sweep_angle, span_pos). -/
theorem generate_wing_geometry_maps_planform
    (airfoil : List Point) (planform : List (ℝ × ℝ × ℝ)) :
    (generate_wing_geometry airfoil planform).length = planform.length ∧
    generate_wing_geometry airfoil planform
      = planform.map (fun st => scale_and_sweep_airfoil airfoil st.2.1 st.2.2 st.1) := by
  have h : generate_wing_geometry airfoil planform
      = planform.map (fun st => scale_and_sweep_airfoil airfoil st.2.1 st.2.2 st.1) := by
    unfold generate_wing_geometry
    rw [foldl_append_singleton]
    simp
  exact ⟨by rw [h]; exact List.length_map planform _, h⟩

/-- C5: for a fixed station (chord, sweep_angle, span_pos), the map applied
to every individual point by scale_and_sweep_airfoil is affine: it commutes
with convex-style combinations t * p + (1 - t) * q of points. -/
theorem sectionPointMap_affine (chord sweep_angle span_pos t : ℝ) (p q : Point) :
    (∀ airfoil : List Point,
        scale_and_sweep_airfoil airfoil chord sweep_angle span_pos
          = airfoil.map (sectionPointMap chord sweep_angle span_pos)) ∧
    sectionPointMap chord sweep_angle span_pos (t • p + (1 - t) • q)
      = t • sectionPointMap chord sweep_angle span_pos p
        + (1 - t) • sectionPointMap chord sweep_angle span_pos q := by
  refine ⟨fun airfoil => scale_and_sweep_eq_map airfoil chord sweep_angle span_pos, ?_⟩
  obtain ⟨px, py, pz⟩ := p
  obtain ⟨qx, qy, qz⟩ := q
  simp only [sectionPointMap, sweepPoint, scalePoint, Prod.mk_add_mk, Prod.smul_mk,
    smul_eq_mul, Prod.mk.injEq]
  refine ⟨by ring, by ring, by ring⟩

/-- C6: the output of scale_and_sweep_airfoil does not depend on the z
coordinates of the input points: two inputs that agree pointwise in x and y
produce identical outputs for the same chord, sweep angle and span position. -/
theorem scale_and_sweep_airfoil_ignores_z
    (airfoil₁ airfoil₂ : List Point) (chord sweep_angle span_pos : ℝ)
    (h : airfoil₁.map (fun p => (p.1, p.2.1)) = airfoil₂.map (fun p => (p.1, p.2.1))) :
    scale_and_sweep_airfoil airfoil₁ chord sweep_angle span_pos
      = scale_and_sweep_airfoil airfoil₂ chord sweep_angle span_pos := by
  have key : ∀ airfoil : List Point,
      scale_and_sweep_airfoil airfoil chord sweep_angle span_pos
        = (airfoil.map (fun p => (p.1, p.2.1))).map
            (fun xy : ℝ × ℝ =>
              ((xy.1 * chord + span_pos * tanRadians sweep_angle, xy.2 * chord, span_pos)
                : Point)) := by
    intro airfoil
    rw [scale_and_sweep_formula airfoil chord sweep_angle span_pos, List.map_map]
    rfl
  rw [key airfoil₁, key airfoil₂, h]

/-- Closed witness for C6: two concrete one-point airfoils differing only in
z give identical outputs at chord 2, sweep angle 30 and span position 4. -/
theorem scale_and_sweep_airfoil_ignores_z_witness :
    ([((1 : ℝ), (2 : ℝ), (3 : ℝ))].map (fun p => (p.1, p.2.1))
        = [((1 : ℝ), (2 : ℝ), (5 : ℝ))].map (fun p => (p.1, p.2.1))) ∧
    scale_and_sweep_airfoil [((1 : ℝ), (2 : ℝ), (3 : ℝ))] 2 30 4
      = scale_and_sweep_airfoil [((1 : ℝ), (2 : ℝ), (5 : ℝ))] 2 30 4 :=
  ⟨by simp,
   scale_and_sweep_airfoil_ignores_z [(1, 2, 3)] [(1, 2, 5)] 2 30 4 (by simp)⟩

/-- The two ways the repository code can raise: IndexError from list
indexing, ValueError from the explicit guard raise. -/
inductive PyError : Type
  | indexError : PyError
  | valueError : String → PyError
deriving DecidableEq

/-- Python list subscription lst[i] for a nonnegative index: the element when
the index is in range, IndexError otherwise. -/
def pyIndex {α : Type} (l : List α) (i : ℕ) : Except PyError α :=
  match l[i]? with
  | some x => Except.ok x
  | none => Except.error PyError.indexError

/-- The external geomdl BSpline.Surface object, recorded as everything the
repository code stores into it. The knot-vector fields record the argument
pair (degree, count) the code passes to the external
utils.generate_knot_vector call. -/
structure Surface : Type where
  degree_u : ℕ
  degree_v : ℕ
  ctrlpts2d : List (List Point)
  knotvector_u : ℕ × ℕ
  knotvector_v : ℕ × ℕ

/-- The inner loop of create_nurbs_surface_from_sections: for a fixed point
index i, walk the section indices js and collect wing_sections[j][i]. -/
def buildRow (wing_sections : List (List Point)) (i : ℕ) :
    List ℕ → Except PyError (List Point)
  | [] => Except.ok []
  | j :: js => do
    let s ← pyIndex wing_sections j
    let p ← pyIndex s i
    let row ← buildRow wing_sections i js
    Except.ok (p :: row)

/-- The outer loop of create_nurbs_surface_from_sections: one row per point
index i, each row running over all num_v section indices. -/
def buildRows (wing_sections : List (List Point)) (num_v : ℕ) :
    List ℕ → Except PyError (List (List Point))
  | [] => Except.ok []
  | i :: is => do
    let row ← buildRow wing_sections i (List.range num_v)
    let rest ← buildRows wing_sections num_v is
    Except.ok (row :: rest)

/-- wing.py, create_nurbs_surface_from_sections: read the first section
(IndexError on an empty list), take num_u from its length and num_v from the
section count, raise ValueError when num_u < 4 or num_v < 4, otherwise set
the degrees to min(num - 1, 5), build the transposed control-point grid, and
pass (degree, count) pairs to the external knot-vector generator. -/
def create_nurbs_surface_from_sections (wing_sections : List (List Point)) :
    Except PyError Surface :=
  match pyIndex wing_sections 0 with
  | Except.error e => Except.error e
  | Except.ok s0 =>
    let num_u := s0.length
    let num_v := wing_sections.length
    if num_u < 4 ∨ num_v < 4 then
      Except.error (PyError.valueError
        "Not enough control points. Need at least degree + 1 in each direction.")
    else
      match buildRows wing_sections num_v (List.range num_u) with
      | Except.error e => Except.error e
      | Except.ok control_points =>
        Except.ok
          { degree_u := min (num_u - 1) 5
            degree_v := min (num_v - 1) 5
            ctrlpts2d := control_points
            knotvector_u := (min (num_u - 1) 5, control_points.length)
            knotvector_v := (min (num_v - 1) 5, wing_sections.length) }

/-- The entry wing_sections[j][i] of the grid, as a total function; both
indices are in range wherever the lemmas below use it. -/
def gridEntry (wing_sections : List (List Point)) (j i : ℕ) : Point :=
  ((wing_sections.getD j []).getD i ((0 : ℝ), (0 : ℝ), (0 : ℝ)))

/-- Stated from the spec sentence for the control-grid assembler: the
transpose of the section list, a num_u-by-num_v grid whose entry at row i,
column j is wing_sections[j][i]. -/
def specTranspose (wing_sections : List (List Point)) (num_u num_v : ℕ) :
    List (List Point) :=
  (List.range num_u).map (fun i => (List.range num_v).map (fun j => gridEntry wing_sections j i))

theorem buildRow_ok (wing_sections : List (List Point)) (num_u i : ℕ)
    (hrect : ∀ s ∈ wing_sections, s.length = num_u) (hi : i < num_u) :
    ∀ js : List ℕ, (∀ j ∈ js, j < wing_sections.length) →
      buildRow wing_sections i js
        = Except.ok (js.map (fun j => gridEntry wing_sections j i)) := by
  intro js
  induction js with
  | nil => intro _; rfl
  | cons j js ih =>
    intro hjs
    have hj : j < wing_sections.length := hjs j (List.mem_cons_self j js)
    have hs : wing_sections[j]? = some wing_sections[j] := List.getElem?_eq_getElem hj
    have hmem : wing_sections[j] ∈ wing_sections := List.getElem_mem hj
    have hlen : wing_sections[j].length = num_u := hrect _ hmem
    have hi' : i < wing_sections[j].length := hlen ▸ hi
    have hp : wing_sections[j][i]? = some wing_sections[j][i] := List.getElem?_eq_getElem hi'
    have hentry : gridEntry wing_sections j i = wing_sections[j][i] := by
      unfold gridEntry
      rw [List.getD_eq_getElem wing_sections [] hj, List.getD_eq_getElem _ _ hi']
    rw [← hentry] at hp
    rw [List.map_cons]
    simp only [buildRow, pyIndex, hs, bind, Except.bind, hp,
      ih (fun x hx => hjs x (List.mem_cons_of_mem j hx))]

theorem buildRows_ok (wing_sections : List (List Point)) (num_u : ℕ)
    (hrect : ∀ s ∈ wing_sections, s.length = num_u) :
    ∀ is : List ℕ, (∀ i ∈ is, i < num_u) →
      buildRows wing_sections wing_sections.length is
        = Except.ok (is.map (fun i =>
            (List.range wing_sections.length).map (fun j => gridEntry wing_sections j i))) := by
  intro is
  induction is with
  | nil => intro _; rfl
  | cons i is ih =>
    intro his
    have hi : i < num_u := his i (List.mem_cons_self i is)
    have hrow := buildRow_ok wing_sections num_u i hrect hi
      (List.range wing_sections.length) (fun j hj => List.mem_range.mp hj)
    simp only [buildRows, hrow]
    rw [ih (fun x hx => his x (List.mem_cons_of_mem i hx))]
    rfl

theorem create_ok_of_rect (ws : List (List Point)) (num_u : ℕ)
    (hne : ws ≠ []) (hrect : ∀ s ∈ ws, s.length = num_u)
    (hu : 4 ≤ num_u) (hv : 4 ≤ ws.length) :
    create_nurbs_surface_from_sections ws
      = Except.ok
        { degree_u := min (num_u - 1) 5
          degree_v := min (ws.length - 1) 5
          ctrlpts2d := specTranspose ws num_u ws.length
          knotvector_u := (min (num_u - 1) 5, num_u)
          knotvector_v := (min (ws.length - 1) 5, ws.length) } := by
  obtain ⟨s0, rest, rfl⟩ : ∃ s0 rest, ws = s0 :: rest := by
    cases ws with
    | nil => exact absurd rfl hne
    | cons a l => exact ⟨a, l, rfl⟩
  have hs0len : s0.length = num_u := hrect s0 (List.mem_cons_self s0 rest)
  have hguard : ¬(s0.length < 4 ∨ (s0 :: rest).length < 4) := by
    rw [hs0len]
    omega
  have hrows := buildRows_ok (s0 :: rest) num_u hrect (List.range num_u)
    (fun i hi => List.mem_range.mp hi)
  simp only [create_nurbs_surface_from_sections, pyIndex, List.getElem?_cons_zero]
  rw [if_neg hguard, hs0len]
  simp only [hrows, specTranspose]
  have hlen : ((List.range num_u).map (fun i =>
      (List.range (s0 :: rest).length).map
        (fun j => gridEntry (s0 :: rest) j i))).length = num_u := by
    rw [List.length_map, List.length_range]
  rw [hlen]

theorem create_valueError_of_small (ws : List (List Point))
    (hne : ws ≠ []) (h : (ws.headD []).length < 4 ∨ ws.length < 4) :
    create_nurbs_surface_from_sections ws
      = Except.error (PyError.valueError
          "Not enough control points. Need at least degree + 1 in each direction.") := by
  obtain ⟨s0, rest, rfl⟩ : ∃ s0 rest, ws = s0 :: rest := by
    cases ws with
    | nil => exact absurd rfl hne
    | cons a l => exact ⟨a, l, rfl⟩
  simp only [List.headD_cons] at h
  simp only [create_nurbs_surface_from_sections, pyIndex, List.getElem?_cons_zero]
  rw [if_pos h]

/-- C9: on the empty section list, create_nurbs_surface_from_sections fails
with IndexError from the subscription wing_sections[0], not with the
documented ValueError: the size guard is never reached. -/
theorem create_empty_raises_indexError :
    create_nurbs_surface_from_sections ([] : List (List Point))
      = Except.error PyError.indexError := rfl

/-- C2: on a non-empty rectangular grid, create_nurbs_surface_from_sections
raises ValueError exactly when the points-per-section count or the section
count is below 4, and otherwise returns a surface without raising; no other
failure exists on such inputs. -/
theorem create_guard_iff (ws : List (List Point)) (num_u : ℕ)
    (hne : ws ≠ []) (hrect : ∀ s ∈ ws, s.length = num_u) :
    ((∃ msg, create_nurbs_surface_from_sections ws
        = Except.error (PyError.valueError msg)) ↔ (num_u < 4 ∨ ws.length < 4))
    ∧ (4 ≤ num_u → 4 ≤ ws.length →
        ∃ surf, create_nurbs_surface_from_sections ws = Except.ok surf) := by
  have hhead : (ws.headD []).length = num_u := by
    obtain ⟨s0, rest, rfl⟩ : ∃ s0 rest, ws = s0 :: rest := by
      cases ws with
      | nil => exact absurd rfl hne
      | cons a l => exact ⟨a, l, rfl⟩
    exact hrect s0 (List.mem_cons_self s0 rest)
  constructor
  · constructor
    · rintro ⟨msg, hmsg⟩
      by_contra hcon
      push_neg at hcon
      rw [create_ok_of_rect ws num_u hne hrect hcon.1 hcon.2] at hmsg
      exact Except.noConfusion hmsg
    · intro hsmall
      exact ⟨_, create_valueError_of_small ws hne (by rw [hhead]; exact hsmall)⟩
  · intro hu hv
    exact ⟨_, create_ok_of_rect ws num_u hne hrect hu hv⟩

/-- A concrete rectangular 4-section grid of 4 points each, used to
instantiate the hypotheses of the grid theorems. Its entry at (j, i) equals
its entry at (i, j), so it is its own transpose. -/
def sampleGrid : List (List Point) :=
  [[(0, 0, 0), (1, 0, 0), (2, 0, 0), (3, 0, 0)],
   [(1, 0, 0), (2, 0, 0), (3, 0, 0), (4, 0, 0)],
   [(2, 0, 0), (3, 0, 0), (4, 0, 0), (5, 0, 0)],
   [(3, 0, 0), (4, 0, 0), (5, 0, 0), (6, 0, 0)]]

/-- Closed witness for C2 at the concrete grid sampleGrid. -/
theorem create_guard_iff_witness :
    (sampleGrid ≠ [] ∧ ∀ s ∈ sampleGrid, s.length = 4) ∧
    (((∃ msg, create_nurbs_surface_from_sections sampleGrid
        = Except.error (PyError.valueError msg)) ↔ (4 < 4 ∨ sampleGrid.length < 4))
      ∧ (4 ≤ 4 → 4 ≤ sampleGrid.length →
          ∃ surf, create_nurbs_surface_from_sections sampleGrid = Except.ok surf)) :=
  ⟨⟨by simp [sampleGrid], by simp [sampleGrid]⟩,
   create_guard_iff sampleGrid 4 (by simp [sampleGrid]) (by simp [sampleGrid])⟩

/-- C3: when create_nurbs_surface_from_sections succeeds on a rectangular
input of num_v sections of num_u points, the control-point grid stored in
the surface is the transpose of the input: a num_u-by-num_v grid whose entry
at row i, column j is wing_sections[j][i]. -/
theorem create_transposes (ws : List (List Point)) (num_u : ℕ)
    (hne : ws ≠ []) (hrect : ∀ s ∈ ws, s.length = num_u)
    (hu : 4 ≤ num_u) (hv : 4 ≤ ws.length) :
    ∃ surf, create_nurbs_surface_from_sections ws = Except.ok surf
      ∧ surf.ctrlpts2d = specTranspose ws num_u ws.length
      ∧ surf.ctrlpts2d.length = num_u
      ∧ (∀ row ∈ surf.ctrlpts2d, row.length = ws.length)
      ∧ ∀ i j : ℕ, i < num_u → j < ws.length →
          (surf.ctrlpts2d.getD i []).getD j ((0 : ℝ), (0 : ℝ), (0 : ℝ))
            = gridEntry ws j i := by
  refine ⟨_, create_ok_of_rect ws num_u hne hrect hu hv, rfl, ?_, ?_, ?_⟩
  · simp [specTranspose]
  · intro row hrow
    simp only [specTranspose, List.mem_map] at hrow
    obtain ⟨i, _, hrow⟩ := hrow
    rw [← hrow, List.length_map, List.length_range]
  · intro i j hi hj
    have hi' : i < (specTranspose ws num_u ws.length).length := by
      simp [specTranspose, hi]
    rw [List.getD_eq_getElem _ _ hi']
    simp only [specTranspose, List.getElem_map, List.getElem_range]
    have hj' : j < ((List.range ws.length).map (fun j => gridEntry ws j i)).length := by
      simp [hj]
    rw [List.getD_eq_getElem _ _ hj']
    simp only [List.getElem_map, List.getElem_range]

/-- Closed witness for C3 at the concrete grid sampleGrid. -/
theorem create_transposes_witness :
    (sampleGrid ≠ [] ∧ (∀ s ∈ sampleGrid, s.length = 4)
      ∧ 4 ≤ 4 ∧ 4 ≤ sampleGrid.length) ∧
    (∃ surf, create_nurbs_surface_from_sections sampleGrid = Except.ok surf
      ∧ surf.ctrlpts2d = specTranspose sampleGrid 4 sampleGrid.length
      ∧ surf.ctrlpts2d.length = 4
      ∧ (∀ row ∈ surf.ctrlpts2d, row.length = sampleGrid.length)
      ∧ ∀ i j : ℕ, i < 4 → j < sampleGrid.length →
          (surf.ctrlpts2d.getD i []).getD j ((0 : ℝ), (0 : ℝ), (0 : ℝ))
            = gridEntry sampleGrid j i) :=
  ⟨⟨by simp [sampleGrid], by simp [sampleGrid], le_refl 4, by simp [sampleGrid]⟩,
   create_transposes sampleGrid 4 (by simp [sampleGrid]) (by simp [sampleGrid])
     (le_refl 4) (by simp [sampleGrid])⟩

/-- C10: whenever create_nurbs_surface_from_sections returns a surface on a
rectangular input of num_u points per section, the degrees it set are
degree_u = min(num_u - 1, 5) and degree_v = min(num_v - 1, 5); each lies
between 3 and 5 and is at most the control-point count of its direction
minus 1. -/
theorem create_degrees (ws : List (List Point)) (num_u : ℕ)
    (hrect : ∀ s ∈ ws, s.length = num_u) (surf : Surface)
    (h : create_nurbs_surface_from_sections ws = Except.ok surf) :
    surf.degree_u = min (num_u - 1) 5 ∧ surf.degree_v = min (ws.length - 1) 5
    ∧ 3 ≤ surf.degree_u ∧ surf.degree_u ≤ 5 ∧ surf.degree_u ≤ num_u - 1
    ∧ 3 ≤ surf.degree_v ∧ surf.degree_v ≤ 5 ∧ surf.degree_v ≤ ws.length - 1 := by
  cases ws with
  | nil => exact Except.noConfusion h
  | cons s0 rest =>
    have hs0len : s0.length = num_u := hrect s0 (List.mem_cons_self s0 rest)
    simp only [create_nurbs_surface_from_sections, pyIndex, List.getElem?_cons_zero] at h
    by_cases hguard : s0.length < 4 ∨ (s0 :: rest).length < 4
    · rw [if_pos hguard] at h
      exact Except.noConfusion h
    · rw [if_neg hguard] at h
      push_neg at hguard
      obtain ⟨hu, hv⟩ := hguard
      rw [hs0len] at hu
      cases hb : buildRows (s0 :: rest) (s0 :: rest).length (List.range s0.length) with
      | error e =>
        rw [hb] at h
        exact Except.noConfusion h
      | ok control_points =>
        rw [hb] at h
        cases h
        simp only [hs0len]
        exact ⟨trivial, trivial, by omega, by omega, by omega, by omega, by omega, by omega⟩

/-- The surface returned by create_nurbs_surface_from_sections on
sampleGrid: its own transpose as the grid, degree 3 in both directions, and
(3, 4) passed to the knot-vector generator in both directions. -/
def sampleSurf : Surface :=
  { degree_u := 3
    degree_v := 3
    ctrlpts2d := sampleGrid
    knotvector_u := (3, 4)
    knotvector_v := (3, 4) }

/-- Closed witness for C10 at the concrete grid sampleGrid. -/
theorem create_degrees_witness :
    ((∀ s ∈ sampleGrid, s.length = 4)
      ∧ create_nurbs_surface_from_sections sampleGrid = Except.ok sampleSurf) ∧
    (sampleSurf.degree_u = min (4 - 1) 5 ∧ sampleSurf.degree_v = min (sampleGrid.length - 1) 5
      ∧ 3 ≤ sampleSurf.degree_u ∧ sampleSurf.degree_u ≤ 5 ∧ sampleSurf.degree_u ≤ 4 - 1
      ∧ 3 ≤ sampleSurf.degree_v ∧ sampleSurf.degree_v ≤ 5
      ∧ sampleSurf.degree_v ≤ sampleGrid.length - 1) :=
  ⟨⟨by simp [sampleGrid], rfl⟩,
   create_degrees sampleGrid 4 (by simp [sampleGrid]) sampleSurf rfl⟩

/-- The external spline surface as seen by nurbs_to_plotly_mesh: a mutable
delta attribute, and the external evaluator behind the evalpts property,
modelled as a function from the current delta to the evaluated point grid. -/
structure SurfaceObj : Type where
  delta : ℝ
  eval : ℝ → List Point

/-- The VisConfig object built by nurbs_to_plotly_mesh. -/
structure VisConfig : Type where
  use_renderer : Bool

/-- The calls nurbs_to_plotly_mesh makes on the external objects, in order:
reading the evalpts property, assigning delta, assigning the visualization
component, and the render call that hands evaluated points to Plotly. -/
inductive RenderEvent : Type
  | evalptsRequested : List Point → RenderEvent
  | deltaSet : ℝ → RenderEvent
  | visAttached : VisConfig → RenderEvent
  | pointsForwardedToPlotly : List Point → RenderEvent

/-- Modelled from the spec: the external render call on a geomdl surface
with a VisPlotly visualization attached evaluates the surface at its current
delta and forwards those evaluated points to the external Plotly plotting
component. -/
noncomputable def renderToPlotly (s : SurfaceObj) : RenderEvent :=
  RenderEvent.pointsForwardedToPlotly (s.eval s.delta)

/-- wing.py, nurbs_to_plotly_mesh: read evalpts into a local that is never
used again, set delta to 0.05, build a VisConfig with use_renderer True,
attach a VisPlotly surface visualization, and render. The function body has
no return statement, so the Python value returned is None; the event list
records the calls made on the external objects. -/
noncomputable def nurbs_to_plotly_mesh (nurbs_surface : SurfaceObj) (num_u num_v : ℕ) :
    Option (List Point) × List RenderEvent :=
  let surface_points := nurbs_surface.eval nurbs_surface.delta
  let s' : SurfaceObj := { nurbs_surface with delta := 0.05 }
  let config : VisConfig := { use_renderer := true }
  (none,
   [RenderEvent.evalptsRequested surface_points,
    RenderEvent.deltaSet 0.05,
    RenderEvent.visAttached config,
    renderToPlotly s'])

/-- Counterexample to C7 as stated: on a surface whose incoming delta is 1
and whose evaluator returns the point (delta, 0, 0), no point list is both
the requested evalpts grid and the list forwarded to the plotting component:
the requested points are evaluated at delta 1, the forwarded ones at the
delta 0.05 set afterwards. -/
theorem nurbs_to_plotly_mesh_not_forward_requested :
    ¬ ∃ pts : List Point,
      RenderEvent.evalptsRequested pts
          ∈ (nurbs_to_plotly_mesh ⟨1, fun d => [(d, 0, 0)]⟩ 50 50).2
        ∧ RenderEvent.pointsForwardedToPlotly pts
          ∈ (nurbs_to_plotly_mesh ⟨1, fun d => [(d, 0, 0)]⟩ 50 50).2 := by
  rintro ⟨pts, h1, h2⟩
  simp only [nurbs_to_plotly_mesh, renderToPlotly, List.mem_cons, List.not_mem_nil,
    or_false, reduceCtorEq, false_or, or_false, RenderEvent.evalptsRequested.injEq,
    RenderEvent.pointsForwardedToPlotly.injEq] at h1 h2
  rw [h1] at h2
  norm_num at h2

/-- C7 amended: nurbs_to_plotly_mesh requests the evalpts grid at the
incoming delta of the surface and discards it, then sets delta to 0.05,
attaches a Plotly visualization with use_renderer True, and renders, which
forwards the points evaluated at delta 0.05 to the external plotting
component. -/
theorem nurbs_to_plotly_mesh_trace (s : SurfaceObj) (num_u num_v : ℕ) :
    (nurbs_to_plotly_mesh s num_u num_v).2
      = [RenderEvent.evalptsRequested (s.eval s.delta),
         RenderEvent.deltaSet 0.05,
         RenderEvent.visAttached { use_renderer := true },
         RenderEvent.pointsForwardedToPlotly (s.eval 0.05)] := rfl

/-- C8: nurbs_to_plotly_mesh always returns None rather than the Plotly
Surface its signature declares, its behaviour does not depend on its num_u
and num_v parameters, and the points the render call forwards are evaluated
at the hard-coded delta 0.05. -/
theorem nurbs_to_plotly_mesh_returns_none (s : SurfaceObj) (num_u num_v : ℕ) :
    (nurbs_to_plotly_mesh s num_u num_v).1 = none
    ∧ nurbs_to_plotly_mesh s num_u num_v = nurbs_to_plotly_mesh s 50 50
    ∧ RenderEvent.deltaSet 0.05 ∈ (nurbs_to_plotly_mesh s num_u num_v).2
    ∧ RenderEvent.pointsForwardedToPlotly (s.eval 0.05)
        ∈ (nurbs_to_plotly_mesh s num_u num_v).2 := by
  refine ⟨rfl, rfl, ?_, ?_⟩
  · simp [nurbs_to_plotly_mesh]
  · simp [nurbs_to_plotly_mesh, renderToPlotly]

end Wing
